import Mathlib

/-!
Shallow embedding of `src/packages/av-cliper/src/chromakeyCustom.ts`, the
per-frame GPU color-correction pipeline of this repository, together with
theorems settling the frozen claims about it.

Modelling conventions:
* GLSL floats in the fragment shader are modelled as rationals (`ℚ`); the
  claims about the shader are structural (composition order, alpha
  passthrough) and do not depend on float rounding.
* The WebGL context is modelled by its observable effects: texture
  configuration records and a per-call trace of GL commands.  The happy path
  of the environment is assumed (context creation and shader compilation
  succeed), as the claims under consideration concern behaviour after
  construction.
* `new Uint8Array(data)` converts each JS number with ToUint8 semantics; on
  integers that is reduction modulo 256 (wrapping, not clamping).
-/

/-- A GLSL `vec4` color, components as exact rationals. -/
structure Vec4 where
  r : ℚ
  g : ℚ
  b : ℚ
  a : ℚ
  deriving DecidableEq, Repr

/-- Embedding of the fragment shader `main` (chromakeyCustom.ts lines 24-36).
Each `lut` argument stands for the sampling function
`fun x => texture(lutTex, vec2(x, 0.5)).r` of the corresponding LUT texture;
the let-bindings mirror the GLSL statements line by line. -/
def fragmentMain (masterLUT redLUT greenLUT blueLUT : ℚ → ℚ) (color : Vec4) :
    Vec4 :=
  let m_r := masterLUT color.r
  let m_g := masterLUT color.g
  let m_b := masterLUT color.b
  let r := redLUT m_r
  let g := greenLUT m_g
  let b := blueLUT m_b
  ⟨r, g, b, color.a⟩

/-- WebGL texture filter modes relevant to this file. -/
inductive TexFilter
  | linear
  | nearest
  deriving DecidableEq, Repr

/-- WebGL texture wrap modes relevant to this file. -/
inductive TexWrap
  | clampToEdge
  | repeatWrap
  | mirroredRepeat
  deriving DecidableEq, Repr

/-- JS `ToUint8` conversion applied by `new Uint8Array(data)` to an integer
sample: reduction modulo 256 (Lean's `%` on `Int` is `emod`, non-negative for
a positive modulus, which matches the JS `modulo 2^8` operation). -/
def toUint8 (x : Int) : Nat :=
  (x % 256).toNat

/-- Observable state of a LUT texture created by `createLUTTexture`.
`magFilter` is never set by the code, so it keeps the WebGL default
(`LINEAR`). -/
structure LUTTexture where
  data : List Nat
  minFilter : TexFilter
  magFilter : TexFilter := .linear
  wrapS : TexWrap
  wrapT : TexWrap
  deriving DecidableEq, Repr

/-- Embedding of `createLUTTexture` (chromakeyCustom.ts lines 122-130):
uploads `new Uint8Array(data)` as a 256x1 LUMINANCE texture, sets
`TEXTURE_MIN_FILTER` to `LINEAR` and both wrap modes to `CLAMP_TO_EDGE`;
`TEXTURE_MAG_FILTER` is left at its default. -/
def createLUTTexture (data : List Int) : LUTTexture :=
  { data := data.map toUint8
    minFilter := .linear
    wrapS := .clampToEdge
    wrapT := .clampToEdge }

/-- The 256-entry identity ramp curve, used as a concrete curve set in
witnesses and counterexamples. -/
def identityRamp : List Int :=
  (List.range 256).map Int.ofNat


/-- Modelled from the spec: `TImgSource` is imported from `./chromakey`,
which is not under `src/`.  The spec (section 6) says the per-call input is a
frame object polymorphic over still-image-like and video-frame-like shapes.
`videoFrame` models a `VideoFrame` (coded dimensions, timestamp, optional
duration); `imageBitmap` models an `ImageBitmap` (width/height, and the only
source the output branch gives `flipY` orientation); `otherValue` models any
JS value of neither supported shape — `instanceof VideoFrame` rejects it, so
the code's else-branches treat it as image-like, its absent `width`/`height`
properties reading as `undefined` (coerced to 0 where used as a number). -/
inductive TImgSource
  | videoFrame (codedWidth codedHeight : Nat) (timestamp : Int)
      (duration : Option Int)
  | imageBitmap (width height : Nat)
  | otherValue
  deriving DecidableEq, Repr

/-- Embedding of `getSourceWH` (chromakeyCustom.ts lines 210-214): coded
dimensions for a `VideoFrame`, the `width`/`height` properties otherwise
(`undefined`, coerced to 0, for a value of neither shape). -/
def getSourceWH : TImgSource → Nat × Nat
  | .videoFrame cw ch _ _ => (cw, ch)
  | .imageBitmap w h => (w, h)
  | .otherValue => (0, 0)

/-- Embedding of `IColorCorrectionOpts` (chromakeyCustom.ts lines 132-137). -/
structure IColorCorrectionOpts where
  masterPolynomial : List Int
  redPolynomial : List Int
  greenPolynomial : List Int
  bluePolynomial : List Int
  deriving DecidableEq, Repr

/-- Observable result of `initCvs` plus the input texture created by
`initTexture`: the canvas sized to the first frame, the linked shader
program, and the four LUT textures (chromakeyCustom.ts lines 139-208,
228-233). -/
structure InitState where
  cvsWidth : Nat
  cvsHeight : Nat
  masterLUTTexture : LUTTexture
  redLUTTexture : LUTTexture
  greenLUTTexture : LUTTexture
  blueLUTTexture : LUTTexture
  deriving DecidableEq, Repr

/-- Embedding of `initCvs` (chromakeyCustom.ts lines 139-208): sizes the
canvas to the supplied dimensions and uploads the four polynomials as LUT
textures via `createLUTTexture`. -/
def initCvs (opts : IColorCorrectionOpts) (width height : Nat) : InitState :=
  { cvsWidth := width
    cvsHeight := height
    masterLUTTexture := createLUTTexture opts.masterPolynomial
    redLUTTexture := createLUTTexture opts.redPolynomial
    greenLUTTexture := createLUTTexture opts.greenPolynomial
    blueLUTTexture := createLUTTexture opts.bluePolynomial }

/-- Closure state of the function returned by `createColorCorrection`
(chromakeyCustom.ts lines 219-225): the nullable `cvs`/`gl`/`texture`/LUT
variables, collapsed into `inited : Option InitState` (all are assigned
together in the single `if` at lines 228-234).  `initCount` is a ghost
counter incremented exactly when that initialization branch runs; the source
has no such counter, it only records how often the branch executed. -/
structure PipelineState where
  initCount : Nat
  inited : Option InitState
  deriving DecidableEq, Repr

/-- GL commands and frame-lifecycle events observable during one call of the
function returned by `createColorCorrection`. -/
inductive GLCommand
  | activeTexture (unit : Nat)
  | bindTexture (unit : Nat)
  | uploadFrame
  | drawArraysCall
  | constructVideoFrame (timestamp : Int) (duration : Option Int)
  | closeInput
  | createImageBitmapOut (flipY : Bool)
  deriving DecidableEq, Repr

/-- Trace of `updateTexture` (chromakeyCustom.ts lines 79-87): bind the input
texture, upload the frame pixels with `texImage2D`, then `drawArrays`. -/
def updateTextureTrace : List GLCommand :=
  [.bindTexture 0, .uploadFrame, .drawArraysCall]

/-- Trace of the body of the function returned by `createColorCorrection`
after the initialization check (chromakeyCustom.ts lines 236-268), in source
order: upload via `updateTexture`, bind the four LUT textures to units 1-4,
`drawArrays`, then the output branch (a `VideoFrame` is constructed and the
input closed for video input; `createImageBitmap` otherwise, with `flipY`
orientation exactly for an `ImageBitmap` input). -/
def processTrace (imgSource : TImgSource) : List GLCommand :=
  [.activeTexture 0] ++ updateTextureTrace ++
    [.activeTexture 1, .bindTexture 1,
     .activeTexture 2, .bindTexture 2,
     .activeTexture 3, .bindTexture 3,
     .activeTexture 4, .bindTexture 4,
     .drawArraysCall] ++
    (match imgSource with
     | .videoFrame _ _ ts du => [.constructVideoFrame ts du, .closeInput]
     | .imageBitmap _ _ => [.createImageBitmapOut true]
     | .otherValue => [.createImageBitmapOut false])

/-- The output frame of one call (chromakeyCustom.ts lines 253-268): for a
`VideoFrame` input, `new VideoFrame(cvs, { alpha: 'keep', timestamp,
duration: duration ?? undefined })` — dimensions are the canvas's, timing is
copied from the input; otherwise `createImageBitmap(cvs, ...)` of the canvas,
with `flipY` orientation exactly when the input is an `ImageBitmap`. -/
inductive ProcessOutput
  | videoFrameOut (width height : Nat) (timestamp : Int) (duration : Option Int)
      (alphaKeep : Bool)
  | imageBitmapOut (width height : Nat) (flipY : Bool)
  deriving DecidableEq, Repr

/-- Width of the output frame. -/
def ProcessOutput.outWidth : ProcessOutput → Nat
  | .videoFrameOut w _ _ _ _ => w
  | .imageBitmapOut w _ _ => w

/-- Height of the output frame. -/
def ProcessOutput.outHeight : ProcessOutput → Nat
  | .videoFrameOut _ h _ _ _ => h
  | .imageBitmapOut _ h _ => h

/-- Timestamp of the output, when it is a video frame. -/
def ProcessOutput.tsOf : ProcessOutput → Option Int
  | .videoFrameOut _ _ ts _ _ => some ts
  | .imageBitmapOut _ _ _ => none

/-- Duration of the output, when it is a video frame. -/
def ProcessOutput.durOf : ProcessOutput → Option (Option Int)
  | .videoFrameOut _ _ _ du _ => some du
  | .imageBitmapOut _ _ _ => none

/-- Output construction from an initialized state (chromakeyCustom.ts lines
253-268). -/
def processBody (s : InitState) : TImgSource → ProcessOutput
  | .videoFrame _ _ ts du => .videoFrameOut s.cvsWidth s.cvsHeight ts du true
  | .imageBitmap _ _ => .imageBitmapOut s.cvsWidth s.cvsHeight true
  | .otherValue => .imageBitmapOut s.cvsWidth s.cvsHeight false

/-- Embedding of the function returned by `createColorCorrection`
(chromakeyCustom.ts lines 227-269): if the closure state is uninitialized,
run `initCvs` with the incoming frame's `getSourceWH` dimensions and
`initTexture`; then (in both cases) run the steady-state body — upload, LUT
binds, draw, output branch.  Returns the new closure state, the output frame
and the trace of GL commands of this call. -/
def process (opts : IColorCorrectionOpts) (st : PipelineState)
    (imgSource : TImgSource) :
    PipelineState × ProcessOutput × List GLCommand :=
  match st.inited with
  | none =>
      let wh := getSourceWH imgSource
      let s := initCvs opts wh.1 wh.2
      (⟨st.initCount + 1, some s⟩, processBody s imgSource,
        processTrace imgSource)
  | some s => (st, processBody s imgSource, processTrace imgSource)

/-- A concrete curve set (all four curves the identity ramp), used in
witnesses and counterexamples. -/
def opts0 : IColorCorrectionOpts :=
  ⟨identityRamp, identityRamp, identityRamp, identityRamp⟩

/-- The pipeline state after processing a first 2x2 image frame from the
fresh closure state, used in witnesses and counterexamples. -/
def initializedState : PipelineState :=
  (process opts0 ⟨0, none⟩ (.imageBitmap 2 2)).1

/-- C1: in the four-curve topology the fragment shader passes each color
channel first through the shared master curve, then through its own channel
curve: `out.c = channelCurve_c(masterCurve(in.c))` for c in r, g, b. -/
theorem fourCurve_master_then_channel (m cr cg cb : ℚ → ℚ) (color : Vec4) :
    (fragmentMain m cr cg cb color).r = cr (m color.r) ∧
    (fragmentMain m cr cg cb color).g = cg (m color.g) ∧
    (fragmentMain m cr cg cb color).b = cb (m color.b) :=
  ⟨rfl, rfl, rfl⟩

/-- C8: for every curve set and every input pixel, the fragment shader
emits the input pixel's alpha unchanged; only r, g, b are transformed. -/
theorem alpha_passthrough (m cr cg cb : ℚ → ℚ) (color : Vec4) :
    (fragmentMain m cr cg cb color).a = color.a :=
  rfl

/-- C2 counterexample: a pipeline initialized by a 2x2 frame, given a 3x3
frame, does not fail — the code has no dimension check and no error path in
`process`, so the call returns an output frame (an image bitmap of the
original 2x2 canvas size), contradicting the claim that it fails with a
DimensionMismatch error before producing any output. -/
theorem dim_mismatch_not_raised_cex :
    (process opts0 initializedState (.imageBitmap 3 3)).2.1
      = ProcessOutput.imageBitmapOut 2 2 true ∧
    (process opts0 initializedState (.imageBitmap 3 3)).1
      = initializedState :=
  ⟨rfl, rfl⟩

/-- C2 amended: processing a frame whose dimensions differ from those that
initialized the surface performs no dimension check: the closure state is
unchanged (no reinitialization) and an output frame of the original
surface's dimensions is produced; no DimensionMismatch error exists.  The
mismatch hypothesis mirrors the claim's guard; the code behaves this way for
every frame, so the proof does not consume it. -/
theorem mismatched_dims_processed_without_error (opts : IColorCorrectionOpts)
    (n : Nat) (s : InitState) (f : TImgSource)
    (_h : getSourceWH f ≠ (s.cvsWidth, s.cvsHeight)) :
    (process opts ⟨n, some s⟩ f).1 = ⟨n, some s⟩ ∧
    ((process opts ⟨n, some s⟩ f).2.1).outWidth = s.cvsWidth ∧
    ((process opts ⟨n, some s⟩ f).2.1).outHeight = s.cvsHeight := by
  refine ⟨rfl, ?_, ?_⟩ <;> cases f <;> rfl

/-- Witness for `mismatched_dims_processed_without_error` at a concrete
mismatched input. -/
theorem mismatched_dims_processed_without_error_witness :
    (process opts0 ⟨1, some (initCvs opts0 2 2)⟩ (.imageBitmap 3 3)).1
      = ⟨1, some (initCvs opts0 2 2)⟩ ∧
    ((process opts0 ⟨1, some (initCvs opts0 2 2)⟩ (.imageBitmap 3 3)).2.1).outWidth
      = (initCvs opts0 2 2).cvsWidth ∧
    ((process opts0 ⟨1, some (initCvs opts0 2 2)⟩ (.imageBitmap 3 3)).2.1).outHeight
      = (initCvs opts0 2 2).cvsHeight :=
  mismatched_dims_processed_without_error opts0 1 (initCvs opts0 2 2)
    (.imageBitmap 3 3) (by decide)

/-- C3 counterexample: a process call on an initialized pipeline issues two
draw calls, not exactly one — `updateTexture` itself ends with a
`drawArrays` (chromakeyCustom.ts line 86) and the process body issues
another after binding the LUT textures (line 251). -/
theorem single_draw_call_cex :
    (process opts0 initializedState (.imageBitmap 2 2)).2.2.count
        GLCommand.drawArraysCall = 2 ∧
    ¬ (process opts0 initializedState (.imageBitmap 2 2)).2.2.count
        GLCommand.drawArraysCall = 1 := by
  exact ⟨rfl, by decide⟩

/-- C3 amended: every process call uploads the frame pixels into the reused
input texture exactly once, and issues exactly two full-viewport draw calls
(one inside `updateTexture` immediately after the upload, one after the LUT
textures are bound), the upload preceding the first draw. -/
theorem upload_then_two_draw_calls (opts : IColorCorrectionOpts)
    (st : PipelineState) (f : TImgSource) :
    (process opts st f).2.2.count GLCommand.drawArraysCall = 2 ∧
    (process opts st f).2.2.count GLCommand.uploadFrame = 1 ∧
    (process opts st f).2.2.indexOf GLCommand.uploadFrame
      < (process opts st f).2.2.indexOf GLCommand.drawArraysCall := by
  obtain ⟨n, i⟩ := st
  cases i <;> cases f <;>
    refine ⟨?_, ?_, ?_⟩ <;>
    simp [process, processTrace, updateTextureTrace, List.count_cons,
      List.indexOf, List.findIdx, List.findIdx.go] <;> decide

/-- C4 counterexample: LUT sample values are not clamped when materialized —
`new Uint8Array(data)` wraps modulo 256, so the out-of-range sample 256 is
stored as 0 (clamping requires 255) and -1 is stored as 255 (clamping
requires 0). -/
theorem curve_clamp_cex :
    (createLUTTexture [256, -1]).data = [0, 255] ∧
    (createLUTTexture [256, -1]).data ≠ [255, 0] := by
  exact ⟨rfl, by decide⟩

/-- C4 amended: each curve sample is stored in the LUT texture after JS
ToUint8 conversion, i.e. reduction modulo 256: samples are converted
independently, the conversion is 256-periodic (so out-of-range values wrap
rather than clamp), in-range values 0..255 are stored exactly, and every
stored byte is below 256. -/
theorem curve_values_wrap_mod_256 (ds : List Int) (x : Int) :
    (createLUTTexture (x :: ds)).data
      = toUint8 x :: (createLUTTexture ds).data ∧
    toUint8 (x + 256) = toUint8 x ∧
    (0 ≤ x → x < 256 → toUint8 x = x.toNat) ∧
    toUint8 x < 256 := by
  refine ⟨rfl, ?_, ?_, ?_⟩ <;> simp [toUint8] <;> omega

/-- Witness for `curve_values_wrap_mod_256` at the in-range sample 5. -/
theorem curve_values_wrap_mod_256_witness :
    (createLUTTexture [(5 : Int)]).data
      = toUint8 5 :: (createLUTTexture []).data ∧
    toUint8 (5 + 256) = toUint8 5 ∧
    toUint8 5 = (5 : Int).toNat ∧
    toUint8 5 < 256 :=
  ⟨(curve_values_wrap_mod_256 [] 5).1,
   (curve_values_wrap_mod_256 [] 5).2.1,
   (curve_values_wrap_mod_256 [] 5).2.2.1 (by decide) (by decide),
   (curve_values_wrap_mod_256 [] 5).2.2.2⟩

/-- C5 counterexample: even for a byte-quantized curve (the identity ramp,
values 0..255), the LUT texture is created with `TEXTURE_MIN_FILTER` set to
`LINEAR`, not `NEAREST` (chromakeyCustom.ts line 126). -/
theorem nearest_sampling_cex :
    (createLUTTexture identityRamp).minFilter = TexFilter.linear ∧
    (createLUTTexture identityRamp).minFilter ≠ TexFilter.nearest := by
  exact ⟨rfl, by decide⟩

/-- C5 amended: every LUT texture, regardless of the supplied curve values,
is configured with linear minification filtering (and the default, also
linear, magnification filtering), so lookups may interpolate between
adjacent stored samples; wrap mode is clamp-to-edge on both axes. -/
theorem lut_texture_linear_filtering (ds : List Int) :
    (createLUTTexture ds).minFilter = TexFilter.linear ∧
    (createLUTTexture ds).magFilter = TexFilter.linear ∧
    (createLUTTexture ds).wrapS = TexWrap.clampToEdge ∧
    (createLUTTexture ds).wrapT = TexWrap.clampToEdge :=
  ⟨rfl, rfl, rfl, rfl⟩

/-- C6 counterexample: an input of neither supported shape does not fail
with an UnsupportedFrameType error — the code has no frame-type check, so
the value falls through `instanceof VideoFrame` into the still-image path
and the call returns an image-bitmap output. -/
theorem unsupported_frame_type_cex :
    (process opts0 initializedState .otherValue).2.1
      = ProcessOutput.imageBitmapOut 2 2 false ∧
    (process opts0 initializedState .otherValue).1 = initializedState :=
  ⟨rfl, rfl⟩

/-- C6 amended: the code performs no frame-type validation: an input that is
neither of the two supported shapes is handled by the still-image branch
(its width/height reads used only for lazy initialization) and the call
produces an image-bitmap output of the surface's dimensions; no
UnsupportedFrameType error is raised. -/
theorem non_shape_input_takes_image_path (opts : IColorCorrectionOpts)
    (n : Nat) (s : InitState) :
    (process opts ⟨n, some s⟩ .otherValue).2.1
      = ProcessOutput.imageBitmapOut s.cvsWidth s.cvsHeight false ∧
    (process opts ⟨n, some s⟩ .otherValue).1 = ⟨n, some s⟩ :=
  ⟨rfl, rfl⟩

/-- C7: starting from the fresh closure state, the first process call runs
the initialization branch exactly once, building the surface and textures
from that call's frame dimensions, and a second call with a frame of the
same declared dimensions leaves the closure state — surface, program and
textures — untouched (the same objects are reused; the step function
returns the stored state unchanged).  The same-dimensions hypothesis mirrors
the claim's guard; the code is stronger and never reinitializes, so the
proof does not consume it. -/
theorem lazy_init_once_and_stable (opts : IColorCorrectionOpts)
    (f1 f2 : TImgSource) (_h : getSourceWH f2 = getSourceWH f1) :
    (process opts ⟨0, none⟩ f1).1.initCount = 1 ∧
    (process opts ⟨0, none⟩ f1).1.inited
      = some (initCvs opts (getSourceWH f1).1 (getSourceWH f1).2) ∧
    (process opts (process opts ⟨0, none⟩ f1).1 f2).1
      = (process opts ⟨0, none⟩ f1).1 :=
  ⟨rfl, rfl, rfl⟩

/-- Witness for `lazy_init_once_and_stable` at two consecutive 2x2 frames. -/
theorem lazy_init_once_and_stable_witness :
    (process opts0 ⟨0, none⟩ (.imageBitmap 2 2)).1.initCount = 1 ∧
    (process opts0 ⟨0, none⟩ (.imageBitmap 2 2)).1.inited
      = some (initCvs opts0 2 2) ∧
    (process opts0 (process opts0 ⟨0, none⟩ (.imageBitmap 2 2)).1
        (.imageBitmap 2 2)).1
      = (process opts0 ⟨0, none⟩ (.imageBitmap 2 2)).1 :=
  lazy_init_once_and_stable opts0 (.imageBitmap 2 2) (.imageBitmap 2 2) rfl

/-- C9: a successfully processed video-frame input yields a video-frame
output whose timestamp and duration are copied unchanged from the input
(`duration ?? undefined` maps an absent duration to an absent duration). -/
theorem video_timing_copied (opts : IColorCorrectionOpts)
    (st : PipelineState) (cw ch : Nat) (ts : Int) (du : Option Int) :
    ((process opts st (.videoFrame cw ch ts du)).2.1).tsOf = some ts ∧
    ((process opts st (.videoFrame cw ch ts du)).2.1).durOf = some du := by
  obtain ⟨n, i⟩ := st
  cases i <;> exact ⟨rfl, rfl⟩

/-- C10: a still-image input (image-bitmap-like or any non-VideoFrame value)
is never closed by a process call — no `closeInput` event occurs in its
trace — while a video-frame input is closed exactly once, and only after
the output video frame has been constructed from the rendered canvas. -/
theorem input_release_policy (opts : IColorCorrectionOpts)
    (st : PipelineState) (w h cw ch : Nat) (ts : Int) (du : Option Int) :
    GLCommand.closeInput ∉ (process opts st (.imageBitmap w h)).2.2 ∧
    GLCommand.closeInput ∉ (process opts st .otherValue).2.2 ∧
    ∃ l, (process opts st (.videoFrame cw ch ts du)).2.2
        = l ++ [.constructVideoFrame ts du, .closeInput] ∧
      GLCommand.closeInput ∉ l := by
  obtain ⟨n, i⟩ := st
  cases i <;>
    refine ⟨?_, ?_,
      ⟨([GLCommand.activeTexture 0] ++ updateTextureTrace ++
        [GLCommand.activeTexture 1, GLCommand.bindTexture 1,
         GLCommand.activeTexture 2, GLCommand.bindTexture 2,
         GLCommand.activeTexture 3, GLCommand.bindTexture 3,
         GLCommand.activeTexture 4, GLCommand.bindTexture 4,
         GLCommand.drawArraysCall] : List GLCommand), ?_, by decide⟩⟩ <;>
    first
      | rfl
      | simp [process, processTrace, updateTextureTrace]
